import Mathlib

/-!
Verification development for the AI Message Monitoring API.

The definitions below are a shallow embedding of `src/app.py` (and, where a
claim concerns repository behaviour only witnessed by the spec and the test
suite, a clearly marked model of the spec's words).  Python strings are
embedded as Lean `String`/`List Char`; database tables as Lean lists of
structure values; exceptions as `Except`; the external LLM as an explicit
oracle argument.  Machine-level details (timestamps, ids) are `Nat`.
-/

namespace App

/-! ### String utilities

Python's `needle in haystack` substring test, `str.lower()` (ASCII case
folding, which is what every keyword list in the source exercises),
`str.strip()` (Python strips the six ASCII whitespace characters), and
`str.split()` / `re.split` helpers, embedded over `List Char`. -/

/-- Python `needle in haystack`: substring membership over character lists. -/
def strIn (needle : List Char) : List Char → Bool
  | [] => needle.isPrefixOf []
  | c :: t => needle.isPrefixOf (c :: t) || strIn needle t

/-- Python `str.lower()` restricted to ASCII, as used by the source's keyword
matching. -/
def lowerStr (s : String) : String := ⟨s.data.map Char.toLower⟩

/-- Whitespace characters removed by Python `str.strip()` and splitting
`str.split()`. -/
def isPyWs (c : Char) : Bool :=
  c = ' ' || c = '\t' || c = '\n' || c = '\r' || c = '\x0b' || c = '\x0c'

/-- Python `str.strip()` on a character list: drop whitespace from both ends. -/
def stripChars (l : List Char) : List Char :=
  ((l.dropWhile isPyWs).reverse.dropWhile isPyWs).reverse

/-- Split a character list at every character satisfying `p`.  `re.split` on a
character class with `+` additionally collapses separator runs; the two only
differ by extra empty segments, which every consumer in the source discards
with an emptiness guard, so the character-by-character split is the faithful
embedding of the observable behaviour. -/
def splitPred (p : Char → Bool) : List Char → List (List Char)
  | [] => [[]]
  | c :: rest =>
    if p c then [] :: splitPred p rest
    else
      match splitPred p rest with
      | [] => [[c]]
      | s :: ss => (c :: s) :: ss

/-- Python `str.split()` (no argument): split on whitespace, dropping empty
segments. -/
def pySplitWords (s : String) : List String :=
  ((splitPred isPyWs s.data).filter (fun seg => !seg.isEmpty)).map String.mk

/-! ### Classifier (`categorize_message`, src/app.py lines 244-302)

The remote myGPT path is embedded as an oracle: `none` models unset
`MYGPT_API_URL`/`MYGPT_API_KEY` configuration, `some (.error ())` a failed
HTTP call, and `some (.ok r)` a reply whose parsed fields (after the
direct-JSON / embedded-JSON extraction of lines 266-280) are `r.intent` and
`r.sentiment` (`none` when missing or unparsable). -/

structure Classification where
  intent : String
  sentiment : String
  deriving DecidableEq

structure CatResponse where
  intent : Option String
  sentiment : Option String
  deriving DecidableEq

/-- Keyword list for the heuristic `task` intent (src/app.py line 291). -/
def taskKeywords : List String :=
  ["please", "can you", "could you", "todo", "kindly", "follow up"]

/-- Positive sentiment keywords (src/app.py line 295). -/
def positive_words : List String :=
  ["good", "great", "love", "like", "excellent", "happy", "awesome", "fantastic"]

/-- Negative sentiment keywords (src/app.py line 296). -/
def negative_words : List String :=
  ["bad", "terrible", "hate", "dislike", "awful", "sad", "angry"]

/-- Heuristic fallback block of `categorize_message` (src/app.py lines
286-302).  The `text = text or ""` line is the identity on strings. -/
def categorize_heuristic (text : String) : Classification :=
  let lower := lowerStr text
  let intent :=
    if strIn "?".data text.data then "question"
    else if taskKeywords.any (fun k => strIn k.data lower.data) then "task"
    else "statement"
  let sentiment :=
    if positive_words.any (fun w => strIn w.data lower.data) then "positive"
    else if negative_words.any (fun w => strIn w.data lower.data) then "negative"
    else "neutral"
  ⟨intent, sentiment⟩

/-- Python truthiness of an optional string field: `None` and `""` are falsy. -/
def pyTruthy : Option String → Bool
  | none => false
  | some s => !s.isEmpty

/-- Full `categorize_message`: use the remote result when both fields are
truthy (line 281), otherwise fall back to the heuristic. -/
def categorize_message (remote : Option (Except Unit CatResponse)) (text : String) :
    Classification :=
  match remote with
  | some (.ok r) =>
    match r.intent, r.sentiment with
    | some i, some s =>
      if !i.isEmpty && !s.isEmpty then ⟨i, s⟩ else categorize_heuristic text
    | _, _ => categorize_heuristic text
  | _ => categorize_heuristic text

/-! ### Followup task extractor (`detect_followup_tasks`, src/app.py 305-322) -/

/-- Separator characters of the `re.split` pattern in src/app.py line 315. -/
def isSentenceSep (c : Char) : Bool :=
  c = '\n' || c = '.' || c = '!' || c = '?'

/-- Keyword list of src/app.py line 320. -/
def followupKeywords : List String :=
  ["todo", "please", "can you", "could you", "follow up", "follow-up", "remind", "need to"]

/-- Does a (stripped) segment contain a followup keyword, case-insensitively? -/
def hasFollowupKeyword (s : List Char) : Bool :=
  followupKeywords.any (fun k => strIn k.data (s.map Char.toLower))

/-- Loop body of the extractor: strip the segment, skip it when empty, append
it when it contains a keyword. -/
def detectStep (tasks : List String) (sentence : List Char) : List String :=
  let s := stripChars sentence
  if s.isEmpty then tasks
  else if hasFollowupKeyword s then tasks ++ [String.mk s]
  else tasks

/-- The extractor `detect_followup_tasks`: empty input yields no task;
otherwise fold the loop body over the sentence split. -/
def detect_followup_tasks (text : String) : List String :=
  if text.isEmpty then []
  else (splitPred isSentenceSep text.data).foldl detectStep []

/-! ### Summarizer (`summarize_messages`, src/app.py 325-339)

`myGPTAPI().generate_test_response` returns a JSON dictionary or raises; the
oracle is `Except Unit GPTResult` with the three fields the source reads. -/

structure GPTResult where
  response : Option String
  summary : Option String
  answer : Option String
  deriving DecidableEq

/-- Python `a or b` on optional string fields: `b` when `a` is falsy. -/
def pyOr (a b : Option String) : Option String :=
  match a with
  | some s => if s.isEmpty then b else some s
  | none => b

/-- Result of `result.get("response") or result.get("summary") or
result.get("answer")` followed by the `if summary:` truthiness test, `none`
when the call raised or no usable field was returned. -/
def llmSummary (llm : Except Unit GPTResult) : Option String :=
  match llm with
  | .error _ => none
  | .ok result =>
    match pyOr result.response (pyOr result.summary result.answer) with
    | none => none
    | some s => if s.isEmpty then none else some s

/-- Python `str.strip()` on a `String`. -/
def pyStrip (s : String) : String := ⟨stripChars s.data⟩

/-- The summarizer `summarize_messages`: empty list short-circuits to `""`;
a usable LLM reply is returned stripped; otherwise the fallback returns the
single message verbatim or `first ++ " ... " ++ last`. -/
def summarize_messages (llm : Except Unit GPTResult) (messages : List String) : String :=
  match messages with
  | [] => ""
  | first :: rest =>
    match llmSummary llm with
    | some s => pyStrip s
    | none =>
      match rest with
      | [] => first
      | _ :: _ => first ++ " ... " ++ List.getLastD rest first

/-! ### Data model

Rows of the tables touched by the claims (`Chat`, `summary_tasks`,
`followup_tasks`, `contacts`) and the in-memory store.  `created_at` is an
abstract `Nat` timestamp; `SERIAL` primary keys are carried as `Nat` ids
handed out by per-table counters. -/

structure ChatRow where
  id : Nat
  conversation_id : Option String
  sender : Option String
  app : Option String
  message : Option String
  created_at : Nat
  contact_id : Option Nat
  message_type : Option String
  thread_key : Option String
  category : Option String
  intent : Option String
  sentiment : Option String
  deriving DecidableEq

structure SummaryTask where
  id : Nat
  conversation_id : String
  status : String
  summary : Option String
  created_at : Nat
  deriving DecidableEq

structure FollowupTask where
  id : Nat
  conversation_id : String
  task : String
  status : String
  created_at : Nat
  deriving DecidableEq

structure Contact where
  id : Nat
  name : String
  info : Option String
  deriving DecidableEq

/-- The persistent store.  `hasSearchVector` records whether migration
`0003_add_search_vector` has been applied (the `search_vector` column and its
GIN index exist). -/
structure Store where
  chat : List ChatRow
  summary_tasks : List SummaryTask
  followup_tasks : List FollowupTask
  contacts : List Contact
  nextChatId : Nat
  nextTaskId : Nat
  nextFollowupId : Nat
  now : Nat
  hasSearchVector : Bool
  deriving DecidableEq

/-! ### Classification job (`process_new_messages`, src/app.py 355-366) -/

/-- The selection query `SELECT id, message FROM Chat WHERE intent IS NULL OR
sentiment IS NULL LIMIT 50` (snapshot taken before any update). -/
def selectUnclassified (chat : List ChatRow) : List ChatRow :=
  (chat.filter (fun r => r.intent.isNone || r.sentiment.isNone)).take 50

/-- Effect of `UPDATE Chat SET intent=%s, sentiment=%s, category=%s WHERE
id=%s` on one row: the category written is the intent (src/app.py 366). -/
def applyMeta (meta : Classification) (r : ChatRow) : ChatRow :=
  { r with intent := some meta.intent, sentiment := some meta.sentiment,
           category := some meta.intent }

/-- One `UPDATE ... WHERE id=%s` statement over the whole table. -/
def updateChatRow (chat : List ChatRow) (mid : Nat) (meta : Classification) :
    List ChatRow :=
  chat.map (fun r => if r.id = mid then applyMeta meta r else r)

/-- One tick of the classification job: fetch the unclassified snapshot, then
update row by row.  `classify` is `categorize_message` with its remote oracle
fixed; `msg or ""` turns a NULL message into the empty string. -/
def process_new_messages (classify : String → Classification)
    (chat : List ChatRow) : List ChatRow :=
  (selectUnclassified chat).foldl
    (fun st sel => updateChatRow st sel.id (classify (sel.message.getD "")))
    chat

/-- Action of one `UPDATE ... WHERE id=%s` statement on one row of the table:
written when the id matches, untouched otherwise.  `updateChatRow st sel.id m`
is exactly `st.map (fun r => classifyStep classify r sel)`. -/
def classifyStep (classify : String → Classification) (r sel : ChatRow) :
    ChatRow :=
  if r.id = sel.id then applyMeta (classify (sel.message.getD "")) r else r

/-! ### Summarization job (`summarize_conversation` + `process_summary_tasks`,
src/app.py 342-383)

`fetchRows cid` embeds the `SELECT message FROM Chat WHERE conversation_id =
%s ORDER BY created_at ASC` query issued through a fresh pooled connection;
it is an oracle returning `.error` when that database access raises. -/

/-- List comprehension `[r[0] for r in rows if r and r[0]]`: keep truthy
(non-NULL, non-empty) message texts. -/
def truthyMessages (rows : List (Option String)) : List String :=
  rows.filterMap (fun m =>
    match m with
    | none => none
    | some s => if s.isEmpty then none else some s)

/-- The function `summarize_conversation`: fetch the conversation's messages
(propagating a database exception) and summarize them. -/
def summarize_conversation (fetchRows : String → Except Unit (List (Option String)))
    (llm : Except Unit GPTResult) (cid : String) : Except Unit String :=
  match fetchRows cid with
  | .error e => .error e
  | .ok rows => .ok (summarize_messages llm (truthyMessages rows))

/-- Loop body of `process_summary_tasks` for one fetched pending task: the
`try` block updates the task to `completed` with the summary; the `except`
block marks it `failed` and leaves the summary column untouched. -/
def process_one_task (fetchRows : String → Except Unit (List (Option String)))
    (llm : Except Unit GPTResult) (t : SummaryTask) : SummaryTask :=
  match summarize_conversation fetchRows llm t.conversation_id with
  | .ok summary => { t with status := "completed", summary := some summary }
  | .error _ => { t with status := "failed" }

/-- One tick of `process_summary_tasks`: the `SELECT ... WHERE status =
'pending'` snapshot picks exactly the pending tasks; each is then updated by
id.  With `SERIAL` primary-key ids this equals updating each pending row in
place and leaving the others alone. -/
def process_summary_tasks (fetchRows : String → Except Unit (List (Option String)))
    (llm : Except Unit GPTResult) (tasks : List SummaryTask) : List SummaryTask :=
  tasks.map (fun t =>
    if t.status = "pending" then process_one_task fetchRows llm t else t)

/-! ### Connection pool and endpoints (src/app.py 61-78, 167-182, 386-627)

`init_db_pool` swallows any construction failure and leaves the pool absent;
`db` raises `HTTPException(503, "Database unavailable")` when the pool is
absent.  Endpoints are embedded as `Except HTTPError` computations over the
store. -/

structure HTTPError where
  status : Nat
  detail : String
  deriving DecidableEq

/-- Pool initialisation: a failure is caught and recorded as an absent pool;
the function is total, so startup never crashes the process on a database
outage. -/
def init_db_pool (attempt : Except Unit Store) : Option Store :=
  match attempt with
  | .ok s => some s
  | .error _ => none

/-- The `db()` context manager's pool check (src/app.py 169-170). -/
def db (pool : Option Store) : Except HTTPError Store :=
  match pool with
  | none => .error ⟨503, "Database unavailable"⟩
  | some s => .ok s

/-! #### Search (`search_messages`, src/app.py 476-502) -/

/-- Row shape returned by `/search` and conversation listing. -/
structure MessageRowOut where
  id : Nat
  conversation_id : Option String
  sender : Option String
  app : Option String
  message : Option String
  created_at : Nat
  contact_id : Option String
  message_type : Option String
  thread_key : Option String
  deriving DecidableEq

/-- Projection of a chat row to the output row shape (ids stringified as in
the route's response assembly). -/
def toMessageRowOut (r : ChatRow) : MessageRowOut :=
  ⟨r.id, r.conversation_id, r.sender, r.app, r.message, r.created_at,
   r.contact_id.map toString, r.message_type, r.thread_key⟩

/-- Predicate of `message ILIKE '%q%'`: case-insensitive substring match; a
NULL message never matches. -/
def ilikeMatch (q : String) (r : ChatRow) : Bool :=
  match r.message with
  | none => false
  | some m => strIn (lowerStr q).data (lowerStr m).data

/-- Stable insertion step for `ORDER BY created_at DESC`. -/
def insertDesc (r : ChatRow) : List ChatRow → List ChatRow
  | [] => [r]
  | x :: xs => if r.created_at ≤ x.created_at then x :: insertDesc r xs
               else r :: x :: xs

/-- Order rows most recent first. -/
def sortByCreatedDesc (rows : List ChatRow) : List ChatRow :=
  rows.foldr insertDesc []

/-- The `/search` route as written in src/app.py 476-502: it always issues the
ILIKE substring query ordered by recency and capped at the limit, without ever
consulting `hasSearchVector`. -/
def search_messages (pool : Option Store) (q : String) (limit : Nat) :
    Except HTTPError (List MessageRowOut) :=
  match db pool with
  | .error e => .error e
  | .ok s =>
    .ok (((sortByCreatedDesc (s.chat.filter (ilikeMatch q))).take limit).map
      toMessageRowOut)

/-- Modelled from the spec: the Search Resolver of spec section 4.4, whose
indexed full-text path is missing from `search_messages` in src/app.py (it is
exercised only by src/tests/test_search.py).  When the `search_vector` column
exists, lowercase the query, split it on whitespace, join the tokens with the
indexed AND operator, and return the rows every one of whose lowercased
whitespace-split words include each token (the `to_tsquery` conjunction
semantics used by the repository's tests), ordered by recency and capped at
the limit; only when the column is absent fall back to the ILIKE substring
scan. -/
def search_resolver_spec (pool : Option Store) (q : String) (limit : Nat) :
    Except HTTPError (List MessageRowOut) :=
  match db pool with
  | .error e => .error e
  | .ok s =>
    if s.hasSearchVector then
      let tokens := pySplitWords (lowerStr q)
      let hits := s.chat.filter (fun r =>
        match r.message with
        | none => false
        | some m => tokens.all (fun t => (pySplitWords (lowerStr m)).contains t))
      .ok (((sortByCreatedDesc hits).take limit).map toMessageRowOut)
    else
      .ok (((sortByCreatedDesc (s.chat.filter (ilikeMatch q))).take limit).map
        toMessageRowOut)

/-! #### Message creation (`create_message`, src/app.py 390-441) -/

structure MessageIn where
  sender : String
  app : String
  message : String
  conversation_id : Option String
  contact_id : Option Nat
  deriving DecidableEq

structure MessageOut where
  id : Nat
  conversation_id : String
  created_at : Nat
  deriving DecidableEq

/-- Conversation id of a freshly inserted row: caller-supplied when present,
otherwise the system-generated identifier produced by the Chat table's column
default and returned by the `RETURNING` clause. -/
def newConversationId (s : Store) (msg : MessageIn) : String :=
  match msg.conversation_id with
  | some c => c
  | none => "conv-" ++ toString s.nextChatId

/-- The `POST /messages` route: insert the chat row, run the followup
extractor on the raw text, and insert one `followup_tasks` row per extracted
task, all linked to the returned conversation id. -/
def create_message (pool : Option Store) (msg : MessageIn) :
    Except HTTPError (Store × MessageOut) :=
  match db pool with
  | .error e => .error e
  | .ok s =>
    let cid := newConversationId s msg
    let row : ChatRow :=
      { id := s.nextChatId, conversation_id := some cid,
        sender := some msg.sender, app := some msg.app,
        message := some msg.message, created_at := s.now,
        contact_id := msg.contact_id, message_type := none, thread_key := none,
        category := none, intent := none, sentiment := none }
    let tasks := detect_followup_tasks msg.message
    let newRows : List FollowupTask :=
      tasks.enum.map (fun p =>
        { id := s.nextFollowupId + p.1, conversation_id := cid, task := p.2,
          status := "pending", created_at := s.now })
    .ok ({ s with chat := s.chat ++ [row],
                  followup_tasks := s.followup_tasks ++ newRows,
                  nextChatId := s.nextChatId + 1,
                  nextFollowupId := s.nextFollowupId + tasks.length },
         ⟨s.nextChatId, cid, s.now⟩)

/-- The `POST /webhook` route delegates to `create_message`. -/
def webhook_ingest (pool : Option Store) (msg : MessageIn) :
    Except HTTPError (Store × MessageOut) :=
  create_message pool msg

/-! #### Conversation listing, contacts, suggestions -/

/-- Stable insertion step for `ORDER BY created_at ASC`. -/
def insertAsc (r : ChatRow) : List ChatRow → List ChatRow
  | [] => [r]
  | x :: xs => if x.created_at ≤ r.created_at then x :: insertAsc r xs
               else r :: x :: xs

/-- Order rows oldest first. -/
def sortByCreatedAsc (rows : List ChatRow) : List ChatRow :=
  rows.foldr insertAsc []

/-- The `GET /conversations/{conversation_id}/messages` route. -/
def list_conversation_messages (pool : Option Store) (conversation_id : String)
    (limit : Nat) : Except HTTPError (List MessageRowOut) :=
  match db pool with
  | .error e => .error e
  | .ok s =>
    .ok (((sortByCreatedAsc (s.chat.filter
        (fun r => r.conversation_id = some conversation_id))).take limit).map
      toMessageRowOut)

structure ContactIn where
  name : String
  info : Option String
  deriving DecidableEq

/-- The `POST /contacts` route. -/
def create_contact (pool : Option Store) (contact : ContactIn) :
    Except HTTPError (Store × Contact) :=
  match db pool with
  | .error e => .error e
  | .ok s =>
    let row : Contact := ⟨s.contacts.length + 1, contact.name, contact.info⟩
    .ok ({ s with contacts := s.contacts ++ [row] }, row)

/-- The `GET /contacts` route. -/
def list_contacts (pool : Option Store) : Except HTTPError (List Contact) :=
  match db pool with
  | .error e => .error e
  | .ok s => .ok s.contacts

/-- The `POST /suggestions` route: read the conversation history, then call
the LLM oracle; an oracle failure is surfaced as a 500, success as the
newline-split suggestions truncated to the limit. -/
def generate_suggestions (pool : Option Store) (conversation_id : String)
    (limit : Nat) (llm : String → Except Unit String) :
    Except HTTPError (List String) :=
  match db pool with
  | .error e => .error e
  | .ok _ =>
    match llm conversation_id with
    | .error _ => .error ⟨500, "myGPT error"⟩
    | .ok text =>
      .ok (((text.splitOn "\n").map pyStrip).filter
            (fun s => !s.isEmpty) |>.take limit)

/-! #### Summary task endpoints (src/app.py 558-627) -/

structure TaskRowOut where
  id : Nat
  conversation_id : String
  status : String
  summary : Option String
  created_at : Nat
  deriving DecidableEq

/-- The `POST /tasks` route: insert a pending task, return the row. -/
def create_task (pool : Option Store) (conversation_id : String) :
    Except HTTPError (Store × TaskRowOut) :=
  match db pool with
  | .error e => .error e
  | .ok s =>
    let row : SummaryTask :=
      ⟨s.nextTaskId, conversation_id, "pending", none, s.now⟩
    .ok ({ s with summary_tasks := s.summary_tasks ++ [row],
                  nextTaskId := s.nextTaskId + 1 },
         ⟨row.id, row.conversation_id, row.status, row.summary, row.created_at⟩)

/-- The `GET /tasks` route (ordered most recent first; embedding keeps store
order, which the claims do not inspect). -/
def list_tasks (pool : Option Store) : Except HTTPError (List TaskRowOut) :=
  match db pool with
  | .error e => .error e
  | .ok s =>
    .ok (s.summary_tasks.map (fun t =>
      ⟨t.id, t.conversation_id, t.status, t.summary, t.created_at⟩))

/-- The `GET /tasks/{task_id}` route: 404 when no row has the id. -/
def get_task (pool : Option Store) (task_id : Nat) :
    Except HTTPError TaskRowOut :=
  match db pool with
  | .error e => .error e
  | .ok s =>
    match s.summary_tasks.find? (fun t => t.id = task_id) with
    | none => .error ⟨404, "Task not found"⟩
    | some t => .ok ⟨t.id, t.conversation_id, t.status, t.summary, t.created_at⟩

/-- Result body of `DELETE /tasks/{task_id}`. -/
structure OkOut where
  ok : Bool
  deriving DecidableEq

/-- The `DELETE /tasks/{task_id}` route: `DELETE FROM summary_tasks WHERE id =
%s` and an unconditional `{"ok": true}` — no existence check. -/
def delete_task (pool : Option Store) (task_id : Nat) :
    Except HTTPError (Store × OkOut) :=
  match db pool with
  | .error e => .error e
  | .ok s =>
    .ok ({ s with summary_tasks :=
            s.summary_tasks.filter (fun t => !(t.id == task_id)) }, ⟨true⟩)

/-! ## Concrete stores used by witnesses and counterexamples -/

/-- Small store with one pending summary task (id 1) and nothing else. -/
def sampleStore : Store :=
  { chat := [], summary_tasks := [⟨1, "c1", "pending", none, 0⟩],
    followup_tasks := [], contacts := [],
    nextChatId := 1, nextTaskId := 2, nextFollowupId := 1, now := 5,
    hasSearchVector := false }

/-- Store on which the search index exists (migration 0003 applied) and whose
only message matches the indexed AND query for `hello bye` but not the
substring pattern `%hello bye%`. -/
def searchBugStore : Store :=
  { chat := [⟨1, some "c1", some "user", some "sms", some "hello there bye",
              0, none, none, none, none, none, none⟩],
    summary_tasks := [], followup_tasks := [], contacts := [],
    nextChatId := 2, nextTaskId := 1, nextFollowupId := 1, now := 1,
    hasSearchVector := true }

/-- Single pending summary task used by witnesses. -/
def pendingTask : SummaryTask := ⟨1, "c1", "pending", none, 0⟩

/-- Fetch oracle that fails exactly for the conversation `"bad"`. -/
def badFetch : String → Except Unit (List (Option String)) :=
  fun cid => if cid = "bad" then Except.error () else Except.ok [some "Hi"]

/-- Two pending tasks, the first over the failing conversation. -/
def isoTasks : List SummaryTask :=
  [⟨1, "bad", "pending", none, 0⟩, ⟨2, "good", "pending", none, 0⟩]

/-- Two-row table: row 1 is fully classified, row 2 is not. -/
def mixedChat : List ChatRow :=
  [⟨1, some "c1", some "u", some "sms", some "done", 0, none, none, none,
    some "statement", some "statement", some "neutral"⟩,
   ⟨2, some "c1", some "u", some "sms", some "new?", 1, none, none, none,
    none, none, none⟩]

/-! ## Claims -/

/-- Claim C7: the heuristic classifier returns intent `question` when the text
contains `?`, else `task` when its lowercase form contains one of the task
keywords, else `statement`; and sentiment `positive` (checked first) or
`negative` when the lowercase text contains a positive / negative keyword,
else `neutral`; in particular `"Is this working?"` has intent `question`,
`"I love this"` sentiment `positive`, and `"This is terrible"` sentiment
`negative` (via `categorize_message` with no usable remote reply). -/
theorem categorize_message_heuristic_behavior :
    ∀ text : String,
      (categorize_heuristic text).intent =
        (if strIn "?".data text.data then "question"
         else if taskKeywords.any (fun k => strIn k.data (lowerStr text).data)
           then "task"
         else "statement") ∧
      (categorize_heuristic text).sentiment =
        (if positive_words.any (fun w => strIn w.data (lowerStr text).data)
           then "positive"
         else if negative_words.any (fun w => strIn w.data (lowerStr text).data)
           then "negative"
         else "neutral") ∧
      (categorize_message none "Is this working?").intent = "question" ∧
      (categorize_message none "I love this").sentiment = "positive" ∧
      (categorize_message none "This is terrible").sentiment = "negative" := by
  intro text
  exact ⟨rfl, rfl, by decide, by decide, by decide⟩

/-- Claim C3: when the LLM call raises or returns no usable field, the
summarizer returns `""` for an empty message list, the single message
verbatim for a one-element list, and `first ++ " ... " ++ last` for longer
lists; in particular `["Hello", "Bye"]` yields exactly `"Hello ... Bye"`. -/
theorem summarize_messages_fallback (llm : Except Unit GPTResult)
    (h : llmSummary llm = none) :
    summarize_messages llm [] = "" ∧
    (∀ m : String, summarize_messages llm [m] = m) ∧
    (∀ messages : List String, 2 ≤ messages.length →
      summarize_messages llm messages =
        messages.headD "" ++ " ... " ++ messages.getLastD "") ∧
    summarize_messages (Except.error ()) ["Hello", "Bye"] = "Hello ... Bye" := by
  refine ⟨rfl, fun m => by simp [summarize_messages, h], ?_, by decide⟩
  intro messages hlen
  match messages with
  | [] => simp at hlen
  | [m] => simp at hlen
  | a :: b :: t =>
    simp only [summarize_messages, h, List.headD_cons, List.getLastD_cons]

/-- Witness for C3 at the concrete failing oracle and two-element list. -/
theorem summarize_messages_fallback_witness :
    summarize_messages (Except.error ()) ["Hello", "Bye"] =
      ["Hello", "Bye"].headD "" ++ " ... " ++ ["Hello", "Bye"].getLastD "" :=
  (summarize_messages_fallback (Except.error ()) rfl).2.2.1 ["Hello", "Bye"]
    (by decide)

/-- Claim C9: with the pool absent every store-dependent route fails fast with
the 503 `Database unavailable` error (never a generic 500), and pool
initialisation swallows its failure so the process keeps running. -/
theorem db_unavailable_returns_503 :
    ∀ (q conversation_id : String) (limit task_id : Nat) (msg : MessageIn)
      (contact : ContactIn) (sugLlm : String → Except Unit String),
      search_messages none q limit = .error ⟨503, "Database unavailable"⟩ ∧
      create_message none msg = .error ⟨503, "Database unavailable"⟩ ∧
      webhook_ingest none msg = .error ⟨503, "Database unavailable"⟩ ∧
      list_conversation_messages none conversation_id limit =
        .error ⟨503, "Database unavailable"⟩ ∧
      create_contact none contact = .error ⟨503, "Database unavailable"⟩ ∧
      list_contacts none = .error ⟨503, "Database unavailable"⟩ ∧
      generate_suggestions none conversation_id limit sugLlm =
        .error ⟨503, "Database unavailable"⟩ ∧
      create_task none conversation_id = .error ⟨503, "Database unavailable"⟩ ∧
      list_tasks none = .error ⟨503, "Database unavailable"⟩ ∧
      get_task none task_id = .error ⟨503, "Database unavailable"⟩ ∧
      delete_task none task_id = .error ⟨503, "Database unavailable"⟩ ∧
      init_db_pool (Except.error ()) = none ∧
      (503 : Nat) ≠ 500 := by
  intro q conversation_id limit task_id msg contact sugLlm
  exact ⟨rfl, rfl, rfl, rfl, rfl, rfl, rfl, rfl, rfl, rfl, rfl, rfl, by decide⟩

/-- Claim C10: `DELETE /tasks/{task_id}` answers `{"ok": true}` for every id,
deleting a nonexistent task leaves the store unchanged, and (unlike deletion)
`GET /tasks/{task_id}` reports 404 for a missing id. -/
theorem delete_task_always_ok (s : Store) (task_id : Nat) :
    delete_task (some s) task_id =
      .ok ({ s with summary_tasks :=
              s.summary_tasks.filter (fun t => !(t.id == task_id)) }, ⟨true⟩) ∧
    ((∀ t ∈ s.summary_tasks, t.id ≠ task_id) →
      delete_task (some s) task_id = .ok (s, ⟨true⟩)) ∧
    ((∀ t ∈ s.summary_tasks, t.id ≠ task_id) →
      get_task (some s) task_id = .error ⟨404, "Task not found"⟩) := by
  refine ⟨rfl, ?_, ?_⟩
  · intro hnone
    have hfix : s.summary_tasks.filter (fun t => !(t.id == task_id)) =
        s.summary_tasks := by
      rw [List.filter_eq_self]
      intro a ha
      simpa using hnone a ha
    simp only [delete_task, db, hfix]
  · intro hnone
    have hfind : s.summary_tasks.find? (fun t => t.id = task_id) = none := by
      rw [List.find?_eq_none]
      intro a ha
      simpa using hnone a ha
    simp only [get_task, db, hfind]

/-- Witness for C10 at a store with one task (id 1) and the absent id 99. -/
theorem delete_task_always_ok_witness :
    delete_task (some sampleStore) 99 = .ok (sampleStore, ⟨true⟩) ∧
    get_task (some sampleStore) 99 = .error ⟨404, "Task not found"⟩ :=
  ⟨(delete_task_always_ok sampleStore 99).2.1 (by decide),
   (delete_task_always_ok sampleStore 99).2.2 (by decide)⟩

/-- Claim C1 is false of the code: `search_messages` never checks for the
`search_vector` column and always runs the ILIKE substring scan.  On a store
where the column exists (migration 0003 applied) holding the single message
`"hello there bye"`, the query `"hello bye"` returns nothing, while the
resolver described by the spec (and asserted by src/tests/test_search.py)
issues the indexed AND query `hello & bye` and returns the message. -/
theorem search_messages_ignores_index :
    search_messages (some searchBugStore) "hello bye" 50 = .ok [] ∧
    search_resolver_spec (some searchBugStore) "hello bye" 50 =
      .ok [⟨1, some "c1", some "user", some "sms", some "hello there bye",
            0, none, none, none⟩] ∧
    searchBugStore.hasSearchVector = true :=
  ⟨rfl, rfl, rfl⟩

/-- Claim C2 is false of the code: an upstream LLM failure inside the
summarizer is caught and recovered by the heuristic fallback, so the task is
marked `completed` (with the fallback text), not `failed`.  Concretely, with
one pending task over `["Hello", "Bye"]` and a failing LLM the tick completes
the task with summary `"Hello ... Bye"`. -/
theorem llm_failure_completed_cex :
    process_summary_tasks (fun _ => .ok [some "Hello", some "Bye"])
        (Except.error ()) [⟨1, "c1", "pending", none, 0⟩] =
      [⟨1, "c1", "completed", some "Hello ... Bye", 0⟩] ∧
    ("completed" : String) ≠ "failed" :=
  ⟨rfl, by decide⟩

/-- Helper: slot `i` of a summarization tick is determined by task `i`
alone — the loop body applied to that task when it is pending, the task
untouched otherwise. -/
theorem process_summary_tasks_getD
    (fetchRows : String → Except Unit (List (Option String)))
    (llm : Except Unit GPTResult) (tasks : List SummaryTask)
    (i : Nat) (hi : i < tasks.length) :
    (process_summary_tasks fetchRows llm tasks).getD i (tasks.get ⟨i, hi⟩) =
      if (tasks.get ⟨i, hi⟩).status = "pending"
      then process_one_task fetchRows llm (tasks.get ⟨i, hi⟩)
      else tasks.get ⟨i, hi⟩ := by
  unfold process_summary_tasks
  rw [List.getD_eq_getElem _ _ (by simpa using hi), List.getElem_map]
  simp [List.get_eq_getElem]

/-- Claim C2, amended: a pending task whose conversation fetch succeeds is
always completed — with the summarizer's output, which on LLM failure is the
local fallback text — while the `failed` status is reserved for exceptions
that escape the summarizer, such as a failing database read of the
conversation. -/
theorem process_summary_tasks_llm_failure
    (fetchRows : String → Except Unit (List (Option String)))
    (llm : Except Unit GPTResult) (tasks : List SummaryTask)
    (i : Nat) (hi : i < tasks.length)
    (hpend : (tasks.get ⟨i, hi⟩).status = "pending") :
    (∀ rows, fetchRows (tasks.get ⟨i, hi⟩).conversation_id = Except.ok rows →
      (process_summary_tasks fetchRows llm tasks).getD i (tasks.get ⟨i, hi⟩) =
        { tasks.get ⟨i, hi⟩ with
            status := "completed",
            summary := some (summarize_messages llm (truthyMessages rows)) }) ∧
    (fetchRows (tasks.get ⟨i, hi⟩).conversation_id = Except.error () →
      (process_summary_tasks fetchRows llm tasks).getD i (tasks.get ⟨i, hi⟩) =
        { tasks.get ⟨i, hi⟩ with status := "failed" }) := by
  rw [process_summary_tasks_getD fetchRows llm tasks i hi, if_pos hpend]
  constructor
  · intro rows hfetch
    simp only [List.get_eq_getElem] at hfetch
    simp [process_one_task, summarize_conversation, hfetch]
  · intro hfetch
    simp only [List.get_eq_getElem] at hfetch
    simp [process_one_task, summarize_conversation, hfetch]

/-- Witness for the amended C2: with a failing LLM and a successful fetch of
`["Hello", "Bye"]` the pending task is completed with the fallback summary. -/
theorem process_summary_tasks_llm_failure_witness :
    (process_summary_tasks (fun _ => Except.ok [some "Hello", some "Bye"])
        (Except.error ()) [pendingTask]).getD 0
        (([pendingTask] : List SummaryTask).get ⟨0, by decide⟩) =
      { ([pendingTask] : List SummaryTask).get ⟨0, by decide⟩ with
          status := "completed",
          summary :=
            some (summarize_messages (Except.error ())
              (truthyMessages [some "Hello", some "Bye"])) } :=
  (process_summary_tasks_llm_failure
    (fun _ => Except.ok [some "Hello", some "Bye"]) (Except.error ())
    [pendingTask] 0 (by decide) rfl).1 [some "Hello", some "Bye"] rfl

/-- Claim C4: a tick preserves the task count, computes each output slot from
that input task alone (so one task's failure cannot affect another or abort
the tick), and a pending task whose processing raises ends `failed` with its
summary column untouched. -/
theorem process_summary_tasks_isolation
    (fetchRows : String → Except Unit (List (Option String)))
    (llm : Except Unit GPTResult) (tasks : List SummaryTask) :
    (process_summary_tasks fetchRows llm tasks).length = tasks.length ∧
    (∀ (i : Nat) (hi : i < tasks.length),
      (process_summary_tasks fetchRows llm tasks).getD i (tasks.get ⟨i, hi⟩) =
        if (tasks.get ⟨i, hi⟩).status = "pending"
        then process_one_task fetchRows llm (tasks.get ⟨i, hi⟩)
        else tasks.get ⟨i, hi⟩) ∧
    (∀ (i : Nat) (hi : i < tasks.length),
      (tasks.get ⟨i, hi⟩).status = "pending" →
      fetchRows (tasks.get ⟨i, hi⟩).conversation_id = Except.error () →
      ((process_summary_tasks fetchRows llm tasks).getD i
          (tasks.get ⟨i, hi⟩)).status = "failed" ∧
      ((process_summary_tasks fetchRows llm tasks).getD i
          (tasks.get ⟨i, hi⟩)).summary = (tasks.get ⟨i, hi⟩).summary) := by
  refine ⟨by simp [process_summary_tasks],
          fun i hi => process_summary_tasks_getD fetchRows llm tasks i hi,
          fun i hi hpend hfetch => ?_⟩
  rw [process_summary_tasks_getD fetchRows llm tasks i hi, if_pos hpend]
  simp only [List.get_eq_getElem] at hfetch
  simp [process_one_task, summarize_conversation, hfetch]

/-- Witness for C4: the failing task ends `failed` while the other slot is
still processed by the loop body. -/
theorem process_summary_tasks_isolation_witness :
    ((process_summary_tasks badFetch (Except.error ()) isoTasks).getD 0
        (isoTasks.get ⟨0, by decide⟩)).status = "failed" ∧
    (process_summary_tasks badFetch (Except.error ()) isoTasks).getD 1
        (isoTasks.get ⟨1, by decide⟩) =
      process_one_task badFetch (Except.error ())
        (isoTasks.get ⟨1, by decide⟩) := by
  constructor
  · exact ((process_summary_tasks_isolation badFetch (Except.error ())
      isoTasks).2.2 0 (by decide) rfl rfl).1
  · have h := (process_summary_tasks_isolation badFetch (Except.error ())
      isoTasks).2.1 1 (by decide)
    exact h.trans (if_pos rfl)

/-- Helper: every character of a split segment is a character of the input. -/
theorem splitPred_mem_chars (p : Char → Bool) :
    ∀ (l : List Char) (seg : List Char), seg ∈ splitPred p l →
      ∀ c ∈ seg, c ∈ l := by
  intro l
  induction l with
  | nil =>
    intro seg hseg c hc
    simp [splitPred] at hseg
    subst hseg
    simp at hc
  | cons a rest ih =>
    intro seg hseg c hc
    by_cases hpa : p a
    · simp only [splitPred] at hseg
      rw [if_pos hpa] at hseg
      rcases List.mem_cons.mp hseg with h | h
      · subst h; simp at hc
      · exact List.mem_cons_of_mem a (ih seg h c hc)
    · simp only [splitPred] at hseg
      rw [if_neg hpa] at hseg
      rcases hsp : splitPred p rest with _ | ⟨s0, ss⟩
      · rw [hsp] at hseg
        have hseq : seg = [a] := by simpa using hseg
        subst hseq
        have hca : c = a := by simpa using hc
        subst hca
        exact List.mem_cons_self c rest
      · rw [hsp] at hseg
        rcases List.mem_cons.mp hseg with h | h
        · subst h
          rcases List.mem_cons.mp hc with hca | hc0
          · subst hca; exact List.mem_cons_self c rest
          · have hs0 : s0 ∈ splitPred p rest := by
              rw [hsp]; exact List.mem_cons_self s0 ss
            exact List.mem_cons_of_mem a (ih s0 hs0 c hc0)
        · have hmem : seg ∈ splitPred p rest := by
            rw [hsp]; exact List.mem_cons_of_mem s0 h
          exact List.mem_cons_of_mem a (ih seg hmem c hc)

/-- Helper: stripping a whitespace-only character list yields the empty list. -/
theorem stripChars_eq_nil_of_ws {l : List Char} (h : ∀ c ∈ l, isPyWs c = true) :
    stripChars l = [] := by
  unfold stripChars
  have h1 : l.dropWhile isPyWs = [] := List.dropWhile_eq_nil_iff.mpr h
  simp [h1]

/-- Helper: the extractor's accumulator loop equals a filter of the stripped
segments. -/
theorem detect_foldl (segs : List (List Char)) (acc : List String) :
    segs.foldl detectStep acc =
    acc ++ ((segs.map stripChars).filter
        (fun seg => !seg.isEmpty && hasFollowupKeyword seg)).map String.mk := by
  induction segs generalizing acc with
  | nil => simp
  | cons cseg rest ih =>
    rw [List.foldl_cons, List.map_cons, List.filter_cons]
    by_cases h1 : (stripChars cseg).isEmpty
    · have hstep : detectStep acc cseg = acc := by
        simp only [detectStep]
        rw [if_pos h1]
      rw [hstep, ih acc]
      have hpred : (!(stripChars cseg).isEmpty && hasFollowupKeyword
          (stripChars cseg)) = false := by simp [h1]
      rw [hpred]
      simp
    · by_cases h2 : hasFollowupKeyword (stripChars cseg)
      · have hstep : detectStep acc cseg =
            acc ++ [String.mk (stripChars cseg)] := by
          simp only [detectStep]
          rw [if_neg h1, if_pos h2]
        rw [hstep, ih (acc ++ [String.mk (stripChars cseg)])]
        have hpred : (!(stripChars cseg).isEmpty && hasFollowupKeyword
            (stripChars cseg)) = true := by simp [h1, h2]
        rw [hpred]
        simp
      · have hstep : detectStep acc cseg = acc := by
          simp only [detectStep]
          rw [if_neg h1, if_neg h2]
        rw [hstep, ih acc]
        have hpred : (!(stripChars cseg).isEmpty && hasFollowupKeyword
            (stripChars cseg)) = false := by simp [h1, h2]
        rw [hpred]
        simp

/-- Claim C8: the extractor emits exactly the non-empty stripped segments of
the sentence split that contain a followup keyword (case-insensitively);
whitespace-only (or empty) input emits nothing; at message creation each
emitted string becomes one `followup_tasks` row linked to the new message's
conversation id; and the spec's example input yields its sentence as a task. -/
theorem detect_followup_tasks_behavior :
    ∀ (text : String) (s : Store) (msg : MessageIn),
      detect_followup_tasks text =
        (((splitPred isSentenceSep text.data).map stripChars).filter
          (fun seg => !seg.isEmpty && hasFollowupKeyword seg)).map String.mk ∧
      ((∀ c ∈ text.data, isPyWs c = true) → detect_followup_tasks text = []) ∧
      (create_message (some s) msg).map (fun p => p.1.followup_tasks) =
        Except.ok (s.followup_tasks ++
          (detect_followup_tasks msg.message).enum.map (fun p =>
            ⟨s.nextFollowupId + p.1, newConversationId s msg, p.2,
             "pending", s.now⟩)) ∧
      (create_message (some s) msg).map (fun p => p.2.conversation_id) =
        Except.ok (newConversationId s msg) ∧
      detect_followup_tasks "Please review the report and send feedback." =
        ["Please review the report and send feedback"] := by
  intro text s msg
  have hchar : detect_followup_tasks text =
      (((splitPred isSentenceSep text.data).map stripChars).filter
        (fun seg => !seg.isEmpty && hasFollowupKeyword seg)).map String.mk := by
    by_cases he : text.isEmpty
    · have : text = "" := (String.isEmpty_iff text).mp he
      subst this
      decide
    · simp only [detect_followup_tasks, he, if_false]
      exact detect_foldl _ []
  refine ⟨hchar, ?_, rfl, rfl, by decide⟩
  intro hws
  rw [hchar]
  have hfil : ((splitPred isSentenceSep text.data).map stripChars).filter
      (fun seg => !seg.isEmpty && hasFollowupKeyword seg) = [] := by
    rw [List.filter_eq_nil_iff]
    intro a ha
    rcases List.mem_map.mp ha with ⟨seg, hseg, rfl⟩
    have hnil : stripChars seg = [] :=
      stripChars_eq_nil_of_ws (fun c hc =>
        hws c (splitPred_mem_chars isSentenceSep text.data seg hseg c hc))
    simp [hnil]
  rw [hfil]
  rfl

/-- Witness for C8 at the whitespace-only input `" \n "`. -/
theorem detect_followup_tasks_behavior_witness :
    detect_followup_tasks " \n " = [] :=
  (detect_followup_tasks_behavior " \n " sampleStore
    ⟨"u", "sms", "hi", none, none⟩).2.1 (by decide)

/-- Helper: the classification tick is the pointwise application of all
selected updates to each row. -/
theorem process_new_messages_eq_map (classify : String → Classification)
    (chat : List ChatRow) :
    process_new_messages classify chat =
      chat.map (fun r => (selectUnclassified chat).foldl (classifyStep classify) r) := by
  unfold process_new_messages
  generalize selectUnclassified chat = sels
  induction sels generalizing chat with
  | nil => simp
  | cons a as ih =>
    simp only [List.foldl_cons]
    have hstep : updateChatRow chat a.id (classify (a.message.getD "")) =
        chat.map (fun r => classifyStep classify r a) := rfl
    rw [hstep, ih (chat.map (fun r => classifyStep classify r a)), List.map_map]
    rfl

/-- Helper: the per-row update chain never changes a row's id. -/
theorem foldl_classifyStep_id (classify : String → Classification) :
    ∀ (sels : List ChatRow) (r : ChatRow),
      (sels.foldl (classifyStep classify) r).id = r.id := by
  intro sels
  induction sels with
  | nil => intro r; rfl
  | cons a as ih =>
    intro r
    rw [List.foldl_cons, ih]
    unfold classifyStep
    by_cases h : r.id = a.id
    · rw [if_pos h]; rfl
    · rw [if_neg h]

/-- Helper: a row whose id matches no selected row is left unchanged. -/
theorem foldl_classifyStep_not_mem (classify : String → Classification) :
    ∀ (sels : List ChatRow) (r : ChatRow),
      (∀ sel ∈ sels, sel.id ≠ r.id) →
      sels.foldl (classifyStep classify) r = r := by
  intro sels
  induction sels with
  | nil => intro r _; rfl
  | cons a as ih =>
    intro r h
    rw [List.foldl_cons]
    have hstep : classifyStep classify r a = r := by
      unfold classifyStep
      exact if_neg (fun hh => h a (List.mem_cons_self a as) hh.symm)
    rw [hstep]
    exact ih r (fun sel hs => h sel (List.mem_cons_of_mem a hs))

/-- Helper: a selected row with a unique id receives exactly its own update. -/
theorem foldl_classifyStep_write (classify : String → Classification) :
    ∀ (sels : List ChatRow) (r : ChatRow),
      r ∈ sels → (sels.map (fun x => x.id)).Nodup →
      (∀ sel ∈ sels, sel.id = r.id → sel = r) →
      sels.foldl (classifyStep classify) r =
        applyMeta (classify (r.message.getD "")) r := by
  intro sels
  induction sels with
  | nil => intro r h; simp at h
  | cons a as ih =>
    intro r hmem hnd huniq
    by_cases hid : a.id = r.id
    · have ha : a = r := huniq a (List.mem_cons_self a as) hid
      subst ha
      rw [List.foldl_cons]
      have hstep : classifyStep classify a a =
          applyMeta (classify (a.message.getD "")) a := by
        unfold classifyStep
        exact if_pos rfl
      rw [hstep]
      apply foldl_classifyStep_not_mem
      intro sel hsel
      have hidp : (applyMeta (classify (a.message.getD "")) a).id = a.id := rfl
      rw [hidp]
      have hnotin : a.id ∉ as.map (fun x => x.id) :=
        ((List.nodup_cons).mp hnd).1
      intro heq
      exact hnotin (heq ▸ List.mem_map.mpr ⟨sel, hsel, rfl⟩)
    · rw [List.foldl_cons]
      have hstep : classifyStep classify r a = r := by
        unfold classifyStep
        exact if_neg (fun hh => hid hh.symm)
      rw [hstep]
      have hmem' : r ∈ as := by
        rcases List.mem_cons.mp hmem with h | h
        · exact absurd (h ▸ rfl) hid
        · exact h
      exact ih r hmem' ((List.nodup_cons).mp hnd).2
        (fun sel hs => huniq sel (List.mem_cons_of_mem a hs))

/-- Helper: a classification tick preserves the table length. -/
theorem process_new_messages_length (classify : String → Classification)
    (chat : List ChatRow) :
    (process_new_messages classify chat).length = chat.length := by
  rw [process_new_messages_eq_map]
  exact List.length_map chat _

/-- Helper: a classification tick preserves every row id. -/
theorem process_new_messages_ids (classify : String → Classification)
    (chat : List ChatRow) :
    (process_new_messages classify chat).map (fun r => r.id) =
      chat.map (fun r => r.id) := by
  rw [process_new_messages_eq_map, List.map_map]
  apply List.map_congr_left
  intro a _
  exact foldl_classifyStep_id classify (selectUnclassified chat) a

/-- Helper: the selected snapshot is a sublist of the table. -/
theorem selectUnclassified_sublist (chat : List ChatRow) :
    (selectUnclassified chat).Sublist chat :=
  (List.take_sublist 50 _).trans (List.filter_sublist chat)

/-- Helper: row-level characterisation of a classification tick over a table
with distinct ids — a selected row is rewritten with its classification, an
unselected row is untouched. -/
theorem process_new_messages_row (classify : String → Classification)
    (chat : List ChatRow) (hnd : (chat.map (fun r => r.id)).Nodup)
    (i : Nat) (hi : i < chat.length) :
    (process_new_messages classify chat).getD i (chat[i]) =
      if chat[i] ∈ selectUnclassified chat
      then applyMeta (classify ((chat[i]).message.getD "")) (chat[i])
      else chat[i] := by
  rw [process_new_messages_eq_map]
  rw [List.getD_eq_getElem _ _ (by simpa using hi), List.getElem_map]
  have hsub := selectUnclassified_sublist chat
  have hrchat : chat[i] ∈ chat := List.getElem_mem hi
  by_cases hmem : chat[i] ∈ selectUnclassified chat
  · rw [if_pos hmem]
    apply foldl_classifyStep_write
    · exact hmem
    · exact List.Nodup.sublist (hsub.map (fun x => x.id)) hnd
    · intro sel hsel hid
      exact List.inj_on_of_nodup_map hnd (hsub.subset hsel) hrchat hid
  · rw [if_neg hmem]
    apply foldl_classifyStep_not_mem
    intro sel hsel heq
    have hseleq : sel = chat[i] :=
      List.inj_on_of_nodup_map hnd (hsub.subset hsel) hrchat heq
    exact hmem (hseleq ▸ hsel)

/-- Helper: a row with both labels present fails the selection predicate. -/
theorem classified_not_selected {chat : List ChatRow} {r : ChatRow}
    (hint : r.intent.isSome) (hsent : r.sentiment.isSome) :
    r ∉ selectUnclassified chat := by
  intro hmem
  have hf := List.take_subset 50 _ hmem
  have hpred := (List.mem_filter.mp hf).2
  rcases Bool.or_eq_true_iff.mp hpred with h | h
  · rw [Option.isNone_iff_eq_none] at h
    rw [h] at hint
    simp at hint
  · rw [Option.isNone_iff_eq_none] at h
    rw [h] at hsent
    simp at hsent

/-- Claim C6: a tick selects at most 50 rows, every selected row has a NULL
intent or sentiment, each selected row is written back with the classifier's
intent and sentiment and with category set to the intent, and the written
category always equals the written intent. -/
theorem classification_job_select_and_write
    (classify : String → Classification) (chat : List ChatRow)
    (hnd : (chat.map (fun r => r.id)).Nodup) :
    (selectUnclassified chat).length ≤ 50 ∧
    (∀ sel ∈ selectUnclassified chat,
      (sel.intent.isNone || sel.sentiment.isNone) = true) ∧
    (∀ (i : Nat) (hi : i < chat.length),
      chat[i] ∈ selectUnclassified chat →
      (process_new_messages classify chat).getD i (chat[i]) =
        applyMeta (classify ((chat[i]).message.getD "")) (chat[i])) ∧
    (∀ (meta : Classification) (r : ChatRow),
      (applyMeta meta r).category = (applyMeta meta r).intent ∧
      (applyMeta meta r).intent = some meta.intent ∧
      (applyMeta meta r).sentiment = some meta.sentiment) := by
  refine ⟨List.length_take_le 50 _, ?_, ?_, fun meta r => ⟨rfl, rfl, rfl⟩⟩
  · intro sel hsel
    have hf : sel ∈ chat.filter (fun r => r.intent.isNone || r.sentiment.isNone) :=
      List.take_subset 50 _ hsel
    exact (List.mem_filter.mp hf).2
  · intro i hi hmem
    rw [process_new_messages_row classify chat hnd i hi, if_pos hmem]

/-- Witness for C6 on `mixedChat`: the unclassified row (index 1) is written
with its classification. -/
theorem classification_job_select_and_write_witness :
    (process_new_messages categorize_heuristic mixedChat).getD 1 (mixedChat[1]) =
      applyMeta (categorize_heuristic ((mixedChat[1]).message.getD ""))
        (mixedChat[1]) :=
  (classification_job_select_and_write categorize_heuristic mixedChat
    (by decide)).2.2.1 1 (by decide) (by decide)

/-- Claim C5: a row that already has both intent and sentiment set is not
selected by the classification job, is left exactly unchanged by one tick,
and is still unchanged after a second tick. -/
theorem classification_job_idempotent
    (classify : String → Classification) (chat : List ChatRow)
    (hnd : (chat.map (fun r => r.id)).Nodup)
    (i : Nat) (hi : i < chat.length)
    (hint : (chat[i]).intent.isSome)
    (hsent : (chat[i]).sentiment.isSome) :
    chat[i] ∉ selectUnclassified chat ∧
    (process_new_messages classify chat).getD i (chat[i]) = chat[i] ∧
    (process_new_messages classify (process_new_messages classify chat)).getD i
      (chat[i]) = chat[i] := by
  have hnotmem : chat[i] ∉ selectUnclassified chat :=
    classified_not_selected hint hsent
  have honce : (process_new_messages classify chat).getD i (chat[i]) = chat[i] := by
    rw [process_new_messages_row classify chat hnd i hi, if_neg hnotmem]
  refine ⟨hnotmem, honce, ?_⟩
  set chat2 := process_new_messages classify chat with hchat2
  have hlen : chat2.length = chat.length := process_new_messages_length _ _
  have hi2 : i < chat2.length := by rw [hlen]; exact hi
  have hnd2 : (chat2.map (fun r => r.id)).Nodup := by
    rw [hchat2, process_new_messages_ids]; exact hnd
  have hval : chat2[i] = chat[i] := by
    have h := honce
    rwa [List.getD_eq_getElem _ _ hi2] at h
  have hnotmem2 : chat2[i] ∉ selectUnclassified chat2 :=
    classified_not_selected (hval ▸ hint) (hval ▸ hsent)
  have hrow2 := process_new_messages_row classify chat2 hnd2 i hi2
  rw [if_neg hnotmem2] at hrow2
  have hb : i < (process_new_messages classify chat2).length := by
    rw [process_new_messages_length]; exact hi2
  rw [List.getD_eq_getElem _ _ hb]
  rw [List.getD_eq_getElem _ _ hb] at hrow2
  rw [hrow2, hval]

/-- Witness for C5 on `mixedChat`: the classified row (index 0) is excluded
and unchanged across two ticks. -/
theorem classification_job_idempotent_witness :
    mixedChat[0] ∉ selectUnclassified mixedChat ∧
    (process_new_messages categorize_heuristic mixedChat).getD 0 (mixedChat[0]) =
      mixedChat[0] ∧
    (process_new_messages categorize_heuristic
        (process_new_messages categorize_heuristic mixedChat)).getD 0
      (mixedChat[0]) = mixedChat[0] :=
  classification_job_idempotent categorize_heuristic mixedChat (by decide)
    0 (by decide) (by decide) (by decide)

end App
